import Mathlib

/-!
Shallow embedding of the `mymoneymap` personal-finance calculators.

The TypeScript source computes with IEEE doubles; the embedding idealises
every numeric literal and arithmetic operation over the rationals `ℚ`.
Loan/investment tenures and compounding frequencies are used as exponents of
`Math.pow`, so they are modelled as natural numbers; retirement ages are
modelled as integers for the same reason.  `Math.round` (round half toward
positive infinity) is modelled by `jsRound`, `Math.max`/`Math.min` by
`max`/`min`, `Math.ceil` by `Int.ceil`.
-/

set_option linter.unusedVariables false

namespace MyMoneyMap

/-- JS `Math.round`: nearest integer, ties toward positive infinity. -/
def jsRound (x : ℚ) : ℤ := ⌊x + 1 / 2⌋

/-- Result record of `calculateEMI` in `src/client/src/utils/calculations.ts`. -/
structure EMIResult where
  emi : ℚ
  totalAmount : ℚ
  totalInterest : ℚ
deriving Repr, DecidableEq, Inhabited

/-- Embedding of `calculateEMI(principal, rate, tenure)`
(`src/client/src/utils/calculations.ts`).  `tenure` (years) is used as an
exponent of `Math.pow`, hence modelled as `ℕ`. -/
def calculateEMI (principal rate : ℚ) (tenure : ℕ) : EMIResult :=
  let monthlyRate : ℚ := rate / (12 * 100)
  let months : ℕ := tenure * 12
  if monthlyRate = 0 then
    { emi := principal / (months : ℚ)
      totalAmount := principal
      totalInterest := 0 }
  else
    let emi : ℚ := (principal * monthlyRate * (1 + monthlyRate) ^ months) /
                   ((1 + monthlyRate) ^ months - 1)
    { emi := (jsRound emi : ℚ)
      totalAmount := (jsRound (emi * (months : ℚ)) : ℚ)
      totalInterest := (jsRound (emi * (months : ℚ) - principal) : ℚ) }

/-- Result record of `calculateSIP`. -/
structure SIPResult where
  futureValue : ℚ
  totalInvestment : ℚ
  totalReturns : ℚ
deriving Repr, DecidableEq, Inhabited

/-- Embedding of `calculateSIP(monthlyAmount, rate, tenure)`; `tenure` is an
exponent of `Math.pow`, hence `ℕ`. -/
def calculateSIP (monthlyAmount rate : ℚ) (tenure : ℕ) : SIPResult :=
  let monthlyRate : ℚ := rate / (12 * 100)
  let months : ℕ := tenure * 12
  let futureValue : ℚ := monthlyAmount *
    (((1 + monthlyRate) ^ months - 1) / monthlyRate) *
    (1 + monthlyRate)
  let totalInvestment : ℚ := monthlyAmount * (months : ℚ)
  let totalReturns : ℚ := futureValue - totalInvestment
  { futureValue := (jsRound futureValue : ℚ)
    totalInvestment := (jsRound totalInvestment : ℚ)
    totalReturns := (jsRound totalReturns : ℚ) }

/-- Result record of `calculateCompoundInterest`. -/
structure CompoundInterestResult where
  amount : ℚ
  interest : ℚ
  principal : ℚ
deriving Repr, DecidableEq, Inhabited

/-- Embedding of `calculateCompoundInterest(principal, rate, time,
compoundFrequency)`; `time` and `compoundFrequency` form the exponent
`compoundFrequency * time` of `Math.pow`, hence `ℕ`. -/
def calculateCompoundInterest (principal rate : ℚ) (time : ℕ)
    (compoundFrequency : ℕ := 1) : CompoundInterestResult :=
  let amount : ℚ :=
    principal * (1 + (rate / 100) / (compoundFrequency : ℚ)) ^ (compoundFrequency * time)
  let interest : ℚ := amount - principal
  { amount := (jsRound amount : ℚ)
    interest := (jsRound interest : ℚ)
    principal := (jsRound principal : ℚ) }

/-- Result record of `calculatePPF`. -/
structure PPFResult where
  maturityAmount : ℚ
  totalInvestment : ℚ
  interest : ℚ
deriving Repr, DecidableEq, Inhabited

/-- The accumulation loop of `calculatePPF`:
`for (year = 1; year <= tenure; year++) maturityAmount += yearlyAmount * (1+r)^(tenure - year + 1)`.
`ppfAccum y r tenure k` is the accumulator after the first `k` iterations
(iteration `k` has `year = k + 1`, so its exponent `tenure - year + 1` is
`tenure - k`). -/
def ppfAccum (yearlyAmount annualRate : ℚ) (tenure : ℕ) : ℕ → ℚ
  | 0 => 0
  | k + 1 => ppfAccum yearlyAmount annualRate tenure k +
      yearlyAmount * (1 + annualRate) ^ (tenure - k)

/-- Embedding of `calculatePPF(yearlyAmount, tenure)`; the fixed PPF rate is
`7.1` percent per year. -/
def calculatePPF (yearlyAmount : ℚ) (tenure : ℕ := 15) : PPFResult :=
  let rate : ℚ := 7.1
  let annualRate : ℚ := rate / 100
  let maturityAmount : ℚ := ppfAccum yearlyAmount annualRate tenure tenure
  let totalInvestment : ℚ := yearlyAmount * (tenure : ℚ)
  let interest : ℚ := maturityAmount - totalInvestment
  { maturityAmount := (jsRound maturityAmount : ℚ)
    totalInvestment := (jsRound totalInvestment : ℚ)
    interest := (jsRound interest : ℚ) }

/-- Result record of `calculateRetirementCorpus`. -/
structure RetirementResult where
  requiredCorpus : ℚ
  monthlySIP : ℚ
  futureMonthlyExpenses : ℚ
  currentValue : ℚ
deriving Repr, DecidableEq, Inhabited

/-- Embedding of `calculateRetirementCorpus(currentAge, retirementAge,
monthlyExpenses, inflationRate, expectedReturn)`.  The ages are used through
the exponent `yearsToRetirement` of `Math.pow`, hence modelled as `ℤ` (the
source also computes an unused `postRetirementYears`, omitted here). -/
def calculateRetirementCorpus (currentAge retirementAge : ℤ)
    (monthlyExpenses inflationRate expectedReturn : ℚ) : RetirementResult :=
  let yearsToRetirement : ℤ := retirementAge - currentAge
  let futureMonthlyExpenses : ℚ :=
    monthlyExpenses * (1 + inflationRate / 100) ^ yearsToRetirement
  let annualExpensesAtRetirement : ℚ := futureMonthlyExpenses * 12
  let requiredCorpus : ℚ := annualExpensesAtRetirement * 25
  let monthlyRate : ℚ := expectedReturn / (12 * 100)
  let months : ℤ := yearsToRetirement * 12
  let monthlySIP : ℚ := requiredCorpus /
    (((1 + monthlyRate) ^ months - 1) / monthlyRate * (1 + monthlyRate))
  { requiredCorpus := (jsRound requiredCorpus : ℚ)
    monthlySIP := (jsRound monthlySIP : ℚ)
    futureMonthlyExpenses := (jsRound futureMonthlyExpenses : ℚ)
    currentValue := (jsRound monthlyExpenses : ℚ) }

/-- Result record of `calculateFIRE`.  `yearsToFire` is produced by
`Math.ceil`, hence `ℤ`. -/
structure FIREResult where
  fireNumber : ℚ
  yearsToFire : ℤ
  fireAge : ℚ
  shortfall : ℚ
deriving Repr, DecidableEq, Inhabited

/-- Embedding of `calculateFIRE(currentAge, currentSavings, monthlyExpenses,
monthlySavings, expectedReturn)`.  The source calls the transcendental
`Math.log`; the embedding takes the logarithm as an explicit function
parameter `log`, keeping the computation a function of its inputs. -/
def calculateFIRE (log : ℚ → ℚ)
    (currentAge currentSavings monthlyExpenses monthlySavings expectedReturn : ℚ) :
    FIREResult :=
  let annualExpenses : ℚ := monthlyExpenses * 12
  let fireNumber : ℚ := annualExpenses * 25
  if currentSavings ≥ fireNumber then
    { fireNumber := (jsRound fireNumber : ℚ)
      yearsToFire := 0
      fireAge := currentAge
      shortfall := 0 }
  else
    let shortfall : ℚ := fireNumber - currentSavings
    let monthlyRate : ℚ := expectedReturn / (12 * 100)
    let months : ℚ :=
      log (1 + shortfall * monthlyRate / monthlySavings) / log (1 + monthlyRate)
    let yearsToFire : ℤ := ⌈months / 12⌉
    { fireNumber := (jsRound fireNumber : ℚ)
      yearsToFire := yearsToFire
      fireAge := currentAge + (yearsToFire : ℚ)
      shortfall := (jsRound shortfall : ℚ) }

/-- The `regime` argument of `calculateIncomeTax`. -/
inductive Regime where
  | old : Regime
  | new : Regime
deriving Repr, DecidableEq, Inhabited

/-- Result record of `calculateIncomeTax`. -/
structure TaxResult where
  tax : ℚ
  cess : ℚ
  totalTax : ℚ
  netIncome : ℚ
deriving Repr, DecidableEq, Inhabited

/-- Embedding of `calculateIncomeTax(grossIncome, regime)`. -/
def calculateIncomeTax (grossIncome : ℚ) (regime : Regime := .new) : TaxResult :=
  let tax : ℚ :=
    match regime with
    | .new =>
      if grossIncome ≤ 300000 then 0
      else if grossIncome ≤ 600000 then (grossIncome - 300000) * 0.05
      else if grossIncome ≤ 900000 then 15000 + (grossIncome - 600000) * 0.10
      else if grossIncome ≤ 1200000 then 45000 + (grossIncome - 900000) * 0.15
      else if grossIncome ≤ 1500000 then 90000 + (grossIncome - 1200000) * 0.20
      else 150000 + (grossIncome - 1500000) * 0.30
    | .old =>
      if grossIncome ≤ 250000 then 0
      else if grossIncome ≤ 500000 then (grossIncome - 250000) * 0.05
      else if grossIncome ≤ 1000000 then 12500 + (grossIncome - 500000) * 0.20
      else 112500 + (grossIncome - 1000000) * 0.30
  let cess : ℚ := tax * 0.04
  let totalTax : ℚ := tax + cess
  { tax := (jsRound tax : ℚ)
    cess := (jsRound cess : ℚ)
    totalTax := (jsRound totalTax : ℚ)
    netIncome := (jsRound (grossIncome - totalTax) : ℚ) }

/-- Result record of `calculateHRAExemption`. -/
structure HRAResult where
  hraExemption : ℚ
  taxableHRA : ℚ
  actualRent : ℚ
  basicSalary : ℚ
deriving Repr, DecidableEq, Inhabited

/-- Embedding of `calculateHRAExemption(salary, hra, rentPaid, isMetroCity)`. -/
def calculateHRAExemption (salary hra rentPaid : ℚ) (isMetroCity : Bool) :
    HRAResult :=
  let basicSalary : ℚ := salary * 0.5
  let exemption1 : ℚ := hra
  let exemption2 : ℚ := basicSalary * (if isMetroCity then 0.5 else 0.4)
  let exemption3 : ℚ := max 0 (rentPaid - basicSalary * 0.1)
  let hraExemption : ℚ := min exemption1 (min exemption2 exemption3)
  let taxableHRA : ℚ := hra - hraExemption
  { hraExemption := (jsRound hraExemption : ℚ)
    taxableHRA := (jsRound taxableHRA : ℚ)
    actualRent := (jsRound rentPaid : ℚ)
    basicSalary := (jsRound basicSalary : ℚ) }

/-- The `jobStability` argument of `calculateEmergencyFund`. -/
inductive JobStability where
  | high : JobStability
  | medium : JobStability
  | low : JobStability
deriving Repr, DecidableEq, Inhabited

/-- Result record of `calculateEmergencyFund`. -/
structure EmergencyFundResult where
  recommendedAmount : ℚ
  months : ℚ
  monthlyExpenses : ℚ
deriving Repr, DecidableEq, Inhabited

/-- Embedding of `calculateEmergencyFund(monthlyExpenses, dependents,
jobStability, hasInsurance)`; the successive mutations of `multiplier` are
written as a chain of lets. -/
def calculateEmergencyFund (monthlyExpenses dependents : ℚ)
    (jobStability : JobStability) (hasInsurance : Bool) : EmergencyFundResult :=
  let multiplier0 : ℚ := 6
  let multiplier1 : ℚ :=
    match jobStability with
    | .low => multiplier0 + 3
    | .medium => multiplier0 + 1
    | .high => multiplier0
  let multiplier2 : ℚ := multiplier1 + dependents * 0.5
  let multiplier : ℚ := if hasInsurance then multiplier2 else multiplier2 + 1
  let emergencyFund : ℚ := monthlyExpenses * multiplier
  { recommendedAmount := (jsRound emergencyFund : ℚ)
    months := (jsRound multiplier : ℚ)
    monthlyExpenses := (jsRound monthlyExpenses : ℚ) }

/-- Result record of `calculateBreakEven`. -/
structure BreakEvenResult where
  breakEvenUnits : ℚ
  breakEvenRevenue : ℚ
  contributionMargin : ℚ
  contributionMarginPercent : ℚ
deriving Repr, DecidableEq, Inhabited

/-- Embedding of `calculateBreakEven(fixedCosts, variableCostPerUnit,
pricePerUnit)`. -/
def calculateBreakEven (fixedCosts variableCostPerUnit pricePerUnit : ℚ) :
    BreakEvenResult :=
  let contributionMargin : ℚ := pricePerUnit - variableCostPerUnit
  let breakEvenUnits : ℚ := fixedCosts / contributionMargin
  let breakEvenRevenue : ℚ := breakEvenUnits * pricePerUnit
  { breakEvenUnits := (jsRound breakEvenUnits : ℚ)
    breakEvenRevenue := (jsRound breakEvenRevenue : ℚ)
    contributionMargin := (jsRound contributionMargin : ℚ)
    contributionMarginPercent := (jsRound (contributionMargin / pricePerUnit * 100) : ℚ) }

/-- The new-regime bracket table as the spec states it: 0 up to 300,000; 5% of
the excess up to 600,000; 15,000 plus 10% of the excess up to 900,000; 45,000
plus 15% of the excess up to 1,200,000; 90,000 plus 20% of the excess up to
1,500,000; 150,000 plus 30% of the excess beyond. -/
def newRegimeBracketTax (g : ℚ) : ℚ :=
  if g ≤ 300000 then 0
  else if g ≤ 600000 then (g - 300000) * (5 / 100)
  else if g ≤ 900000 then 15000 + (g - 600000) * (10 / 100)
  else if g ≤ 1200000 then 45000 + (g - 900000) * (15 / 100)
  else if g ≤ 1500000 then 90000 + (g - 1200000) * (20 / 100)
  else 150000 + (g - 1500000) * (30 / 100)

/-- Embedding of the zod `emiSchema` of the EMI calculator:
`loanAmount: min(1)`, `interestRate: min(0.1).max(50)`,
`loanTenure: min(1).max(50)`; the schema accepts exactly when every check
passes. -/
def emiSchemaAccepts (loanAmount interestRate loanTenure : ℚ) : Bool :=
  decide (1 ≤ loanAmount) &&
  (decide (0.1 ≤ interestRate) && decide (interestRate ≤ 50)) &&
  (decide (1 ≤ loanTenure) && decide (loanTenure ≤ 50))

/-- Embedding of the zod `amortizationSchema` of
`LoanAmortizationCalculator.tsx` (identical checks to `emiSchema`). -/
def amortizationSchemaAccepts (loanAmount interestRate loanTenure : ℚ) : Bool :=
  decide (1 ≤ loanAmount) &&
  (decide (0.1 ≤ interestRate) && decide (interestRate ≤ 50)) &&
  (decide (1 ≤ loanTenure) && decide (loanTenure ≤ 50))

/-- One row of the schedule (`AmortizationRow` in
`LoanAmortizationCalculator.tsx`); every stored numeric field is
`Math.round`ed by the source. -/
structure AmortizationRow where
  month : ℕ
  emi : ℤ
  principalPayment : ℤ
  interestPayment : ℤ
  remainingBalance : ℤ
  cumulativePrincipal : ℤ
  cumulativeInterest : ℤ
deriving Repr, DecidableEq, Inhabited

/-- One iteration of the schedule loop acting on the exact running balance:
`remainingBalance = Math.max(0, remainingBalance - (emi - remainingBalance * monthlyRate))`. -/
def amortStep (emi monthlyRate b : ℚ) : ℚ :=
  max 0 (b - (emi - b * monthlyRate))

/-- The `for (month = 1; month <= totalMonths; month++)` loop of
`generateAmortizationSchedule`, recursing on the number of months still to
emit; `month` is the 1-based counter and the three rationals are the exact
running state. -/
def amortGo (emi monthlyRate : ℚ) :
    ℕ → ℕ → ℚ → ℚ → ℚ → List AmortizationRow
  | 0, _, _, _, _ => []
  | fuel + 1, month, remainingBalance, cumulativePrincipal, cumulativeInterest =>
    let interestPayment : ℚ := remainingBalance * monthlyRate
    let principalPayment : ℚ := emi - interestPayment
    let remainingBalance' : ℚ := max 0 (remainingBalance - principalPayment)
    let cumulativePrincipal' : ℚ := cumulativePrincipal + principalPayment
    let cumulativeInterest' : ℚ := cumulativeInterest + interestPayment
    { month := month
      emi := jsRound emi
      principalPayment := jsRound principalPayment
      interestPayment := jsRound interestPayment
      remainingBalance := jsRound remainingBalance'
      cumulativePrincipal := jsRound cumulativePrincipal'
      cumulativeInterest := jsRound cumulativeInterest' } ::
      amortGo emi monthlyRate fuel (month + 1) remainingBalance'
        cumulativePrincipal' cumulativeInterest'

/-- The fixed EMI computed at the top of `generateAmortizationSchedule`. -/
def amortEMI (loanAmount interestRate : ℚ) (loanTenure : ℕ) : ℚ :=
  let monthlyRate : ℚ := interestRate / (12 * 100)
  let totalMonths : ℕ := loanTenure * 12
  (loanAmount * monthlyRate * (1 + monthlyRate) ^ totalMonths) /
    ((1 + monthlyRate) ^ totalMonths - 1)

/-- Embedding of `generateAmortizationSchedule(loanAmount, interestRate,
loanTenure)`; `loanTenure` (years) is used through the exponent
`totalMonths`, hence `ℕ`. -/
def generateAmortizationSchedule (loanAmount interestRate : ℚ)
    (loanTenure : ℕ) : List AmortizationRow :=
  let monthlyRate : ℚ := interestRate / (12 * 100)
  let totalMonths : ℕ := loanTenure * 12
  amortGo (amortEMI loanAmount interestRate loanTenure) monthlyRate
    totalMonths 1 loanAmount 0 0

/-- The exact remaining balance of the schedule loop at the start of month
`k + 1`. -/
def amortBalance (loanAmount interestRate : ℚ) (loanTenure k : ℕ) : ℚ :=
  (amortStep (amortEMI loanAmount interestRate loanTenure)
    (interestRate / (12 * 100)))^[k] loanAmount

lemma newRegimeBracketTax_eq_code (g : ℚ) :
    newRegimeBracketTax g =
      (if g ≤ 300000 then (0 : ℚ)
       else if g ≤ 600000 then (g - 300000) * 0.05
       else if g ≤ 900000 then 15000 + (g - 600000) * 0.10
       else if g ≤ 1200000 then 45000 + (g - 900000) * 0.15
       else if g ≤ 1500000 then 90000 + (g - 1200000) * 0.20
       else 150000 + (g - 1500000) * 0.30) := by
  unfold newRegimeBracketTax
  split_ifs <;> norm_num

lemma ppfAccum_mul (y r : ℚ) (t : ℕ) :
    ∀ k, k ≤ t →
      ppfAccum y r t k * r = y * ((1 + r) ^ (t + 1) - (1 + r) ^ (t + 1 - k))
  | 0, _ => by simp [ppfAccum]
  | k + 1, hk => by
      have hk' : k ≤ t := Nat.le_of_succ_le hk
      have e1 : t + 1 - k = (t - k) + 1 := by omega
      have e2 : t + 1 - (k + 1) = t - k := by omega
      have ih := ppfAccum_mul y r t k hk'
      rw [ppfAccum, e2]
      calc (ppfAccum y r t k + y * (1 + r) ^ (t - k)) * r
          = ppfAccum y r t k * r + y * (1 + r) ^ (t - k) * r := by ring
        _ = y * ((1 + r) ^ (t + 1) - (1 + r) ^ (t + 1 - k)) +
              y * (1 + r) ^ (t - k) * r := by rw [ih]
        _ = y * ((1 + r) ^ (t + 1) - (1 + r) ^ (t - k)) := by rw [e1, pow_succ]; ring

lemma amortGo_length (e mr : ℚ) :
    ∀ fuel month b cp ci, (amortGo e mr fuel month b cp ci).length = fuel
  | 0, _, _, _, _ => rfl
  | fuel + 1, month, b, cp, ci => by
      simp only [amortGo, List.length_cons, amortGo_length e mr fuel]

lemma amortGo_get? (e mr : ℚ) :
    ∀ fuel k, k < fuel → ∀ month b cp ci, ∃ cp' ci',
      (amortGo e mr fuel month b cp ci).get? k = some
        { month := month + k
          emi := jsRound e
          principalPayment := jsRound (e - (amortStep e mr)^[k] b * mr)
          interestPayment := jsRound ((amortStep e mr)^[k] b * mr)
          remainingBalance := jsRound ((amortStep e mr)^[k + 1] b)
          cumulativePrincipal := cp'
          cumulativeInterest := ci' }
  | 0, k, hk, _, _, _, _ => absurd hk (Nat.not_lt_zero k)
  | fuel + 1, 0, _, month, b, cp, ci => by
      refine ⟨jsRound (cp + (e - b * mr)), jsRound (ci + b * mr), ?_⟩
      simp only [amortGo, List.get?, Function.iterate_zero, Function.iterate_one,
        id_eq, Nat.add_zero, Option.some.injEq]
      rfl
  | fuel + 1, k + 1, hk, month, b, cp, ci => by
      obtain ⟨cp', ci', ih⟩ := amortGo_get? e mr fuel k (Nat.lt_of_succ_lt_succ hk)
        (month + 1) (amortStep e mr b) (cp + (e - b * mr)) (ci + b * mr)
      refine ⟨cp', ci', ?_⟩
      have hcons : (amortGo e mr (fuel + 1) month b cp ci).get? (k + 1) =
          (amortGo e mr fuel (month + 1) (amortStep e mr b)
            (cp + (e - b * mr)) (ci + b * mr)).get? k := rfl
      rw [hcons, ih]
      have h1 : month + 1 + k = month + (k + 1) := by omega
      have h2 : (amortStep e mr)^[k] (amortStep e mr b) = (amortStep e mr)^[k + 1] b :=
        (Function.iterate_succ_apply (amortStep e mr) k b).symm
      have h3 : (amortStep e mr)^[k + 1] (amortStep e mr b) =
          (amortStep e mr)^[k + 1 + 1] b :=
        (Function.iterate_succ_apply (amortStep e mr) (k + 1) b).symm
      rw [h1, h2, h3]

lemma generateAmortizationSchedule_length (L r : ℚ) (t : ℕ) :
    (generateAmortizationSchedule L r t).length = t * 12 := by
  simp only [generateAmortizationSchedule]
  exact amortGo_length _ _ _ _ _ _ _

lemma jsRound_nonneg {x : ℚ} (hx : 0 ≤ x) : 0 ≤ jsRound x :=
  Int.le_floor.mpr (by push_cast; linarith)

lemma jsRound_mono {x y : ℚ} (h : x ≤ y) : jsRound x ≤ jsRound y :=
  Int.floor_mono (by linarith)

lemma get?_getD_of_lt {α : Type} [Inhabited α] (l : List α) (k : ℕ)
    (hk : k < l.length) : l.get? k = some ((l.get? k).getD default) := by
  cases h : l.get? k with
  | none => exact absurd (List.get?_eq_none.mp h) (not_le.mpr hk)
  | some a => simp

lemma amortStep_le_self {e mr b Lq : ℚ} (hb0 : 0 ≤ b) (hbL : b ≤ Lq)
    (hmr : 0 ≤ mr) (he : Lq * mr ≤ e) : amortStep e mr b ≤ b := by
  apply max_le hb0
  have : b * mr ≤ Lq * mr := mul_le_mul_of_nonneg_right hbL hmr
  linarith

lemma amortBalance_bounds (e mr Lq : ℚ) (hL0 : 0 ≤ Lq) (hmr : 0 ≤ mr)
    (he : Lq * mr ≤ e) :
    ∀ k, 0 ≤ (amortStep e mr)^[k] Lq ∧ (amortStep e mr)^[k] Lq ≤ Lq
  | 0 => ⟨hL0, le_refl Lq⟩
  | k + 1 => by
      obtain ⟨h0, hLk⟩ := amortBalance_bounds e mr Lq hL0 hmr he k
      rw [Function.iterate_succ_apply']
      exact ⟨le_max_left 0 _,
        le_trans (amortStep_le_self h0 hLk hmr he) hLk⟩

lemma amortBalance_antitone (e mr Lq : ℚ) (hL0 : 0 ≤ Lq) (hmr : 0 ≤ mr)
    (he : Lq * mr ≤ e) {j k : ℕ} (hjk : j ≤ k) :
    (amortStep e mr)^[k] Lq ≤ (amortStep e mr)^[j] Lq := by
  have hstep : ∀ m, (amortStep e mr)^[m + 1] Lq ≤ (amortStep e mr)^[m] Lq := by
    intro m
    rw [Function.iterate_succ_apply']
    obtain ⟨h0, hLm⟩ := amortBalance_bounds e mr Lq hL0 hmr he m
    exact amortStep_le_self h0 hLm hmr he
  induction k with
  | zero => rw [Nat.le_zero.mp hjk]
  | succ k ih =>
      rcases Nat.lt_or_ge j (k + 1) with hlt | hge
      · exact le_trans (hstep k) (ih (Nat.lt_succ_iff.mp hlt))
      · rw [le_antisymm hjk hge]

lemma amortEMI_ge (L r : ℚ) (t : ℕ) (hL : 0 < L) (hr : 0 < r) (ht : 0 < t) :
    L * (r / (12 * 100)) ≤ amortEMI L r t := by
  have hmr0 : 0 < r / (12 * 100) := div_pos hr (by norm_num)
  have hA : 1 < (1 + r / (12 * 100)) ^ (t * 12) :=
    one_lt_pow₀ (by linarith) (by omega)
  have hA1 : 0 < (1 + r / (12 * 100)) ^ (t * 12) - 1 := by linarith
  simp only [amortEMI]
  rw [le_div_iff₀ hA1]
  nlinarith [mul_pos hL hmr0]

/-- C1: for positive principal, rate and integer tenure, `calculateEMI` returns
`emi` equal to the textbook amortization formula `P*r*(1+r)^n / ((1+r)^n - 1)`
(with `r = rate/1200`, `n = tenure*12`) rounded to the nearest integer. -/
theorem calculateEMI_matches_formula (p r : ℚ) (t : ℕ)
    (hp : 0 < p) (hr : 0 < r) (ht : 0 < t) :
    (calculateEMI p r t).emi =
      (jsRound ((p * (r / 1200) * (1 + r / 1200) ^ (t * 12)) /
        ((1 + r / 1200) ^ (t * 12) - 1)) : ℚ) := by
  have hmr : r / (12 * 100) ≠ 0 :=
    div_ne_zero (ne_of_gt hr) (by norm_num)
  simp only [calculateEMI, if_neg hmr]
  norm_num

/-- C1 witness: the spec's quoted instance, loan 1,000,000 at 8.5% for 15 years. -/
theorem calculateEMI_matches_formula_witness :
    (calculateEMI 1000000 (17 / 2) 15).emi =
      (jsRound ((1000000 * ((17 / 2) / 1200) * (1 + (17 / 2) / 1200) ^ (15 * 12)) /
        ((1 + (17 / 2) / 1200) ^ (15 * 12) - 1)) : ℚ) :=
  calculateEMI_matches_formula 1000000 (17 / 2) 15 (by decide) (by simp) (by decide)

/-- C9: at annual rate 0 and positive tenure, `calculateEMI` takes the guarded
zero-rate branch and returns `emi = principal / (12 * tenure)`,
`totalAmount = principal`, `totalInterest = 0`; the general formula's division
by `(1 + monthlyRate)^months - 1` is never evaluated on this branch. -/
theorem calculateEMI_zero_rate (p : ℚ) (t : ℕ) (ht : 0 < t) :
    calculateEMI p 0 t =
      { emi := p / (12 * (t : ℚ)), totalAmount := p, totalInterest := 0 } := by
  simp only [calculateEMI, zero_div, if_pos rfl]
  have : ((t * 12 : ℕ) : ℚ) = 12 * (t : ℚ) := by push_cast; ring
  rw [this]
  simp

/-- C9 witness: principal 500, rate 0, tenure 2 years. -/
theorem calculateEMI_zero_rate_witness :
    calculateEMI 500 0 2 =
      { emi := 500 / (12 * ((2 : ℕ) : ℚ)), totalAmount := 500, totalInterest := 0 } :=
  calculateEMI_zero_rate 500 2 (by decide)

/-- C10: for an integer principal on the non-zero-rate branch, `calculateEMI`
satisfies the accounting identity `totalAmount = totalInterest + principal`,
because rounding commutes with subtracting an integer. -/
theorem calculateEMI_accounting_identity (P : ℤ) (r : ℚ) (t : ℕ)
    (hr : 0 < r) (ht : 0 < t) :
    (calculateEMI (P : ℚ) r t).totalAmount =
      (calculateEMI (P : ℚ) r t).totalInterest + (P : ℚ) := by
  have hmr : r / (12 * 100) ≠ 0 :=
    div_ne_zero (ne_of_gt hr) (by norm_num)
  simp only [calculateEMI, if_neg hmr]
  unfold jsRound
  have h : ∀ x : ℚ, x - (P : ℚ) + 1 / 2 = x + 1 / 2 - (P : ℚ) := fun x => by ring
  rw [h, Int.floor_sub_int]
  push_cast
  ring

/-- C10 witness: principal 1000, rate 12%, tenure 1 year. -/
theorem calculateEMI_accounting_identity_witness :
    (calculateEMI ((1000 : ℤ) : ℚ) 12 1).totalAmount =
      (calculateEMI ((1000 : ℤ) : ℚ) 12 1).totalInterest + ((1000 : ℤ) : ℚ) :=
  calculateEMI_accounting_identity 1000 12 1 (by decide) (by decide)

/-- C3: for non-negative gross income in the new regime, `calculateIncomeTax`
computes the base tax by the bracket table, a cess of 4% of that tax, and
returns `totalTax = tax + cess` and `netIncome = grossIncome - totalTax`, each
rounded to the nearest integer. -/
theorem calculateIncomeTax_new_regime (g : ℚ) (hg : 0 ≤ g) :
    (calculateIncomeTax g .new).tax = (jsRound (newRegimeBracketTax g) : ℚ) ∧
    (calculateIncomeTax g .new).cess =
      (jsRound (newRegimeBracketTax g * (4 / 100)) : ℚ) ∧
    (calculateIncomeTax g .new).totalTax =
      (jsRound (newRegimeBracketTax g + newRegimeBracketTax g * (4 / 100)) : ℚ) ∧
    (calculateIncomeTax g .new).netIncome =
      (jsRound (g - (newRegimeBracketTax g + newRegimeBracketTax g * (4 / 100))) : ℚ) := by
  simp only [newRegimeBracketTax_eq_code, calculateIncomeTax]
  norm_num

/-- C3 witness: gross income 750,000 in the new regime. -/
theorem calculateIncomeTax_new_regime_witness :
    (calculateIncomeTax 750000 .new).tax = (jsRound (newRegimeBracketTax 750000) : ℚ) ∧
    (calculateIncomeTax 750000 .new).cess =
      (jsRound (newRegimeBracketTax 750000 * (4 / 100)) : ℚ) ∧
    (calculateIncomeTax 750000 .new).totalTax =
      (jsRound (newRegimeBracketTax 750000 + newRegimeBracketTax 750000 * (4 / 100)) : ℚ) ∧
    (calculateIncomeTax 750000 .new).netIncome =
      (jsRound (750000 - (newRegimeBracketTax 750000 + newRegimeBracketTax 750000 * (4 / 100))) : ℚ) :=
  calculateIncomeTax_new_regime 750000 (by decide)

/-- C4: for non-negative salary, HRA and rent, `calculateHRAExemption` returns
the rounded minimum of (1) the HRA received, (2) 50% (metro) or 40%
(non-metro) of the basic salary (taken as 50% of salary), and (3)
`max 0 (rentPaid - 10% of basic salary)`, and `taxableHRA` is the HRA minus
that minimum, rounded. -/
theorem calculateHRAExemption_spec (salary hra rentPaid : ℚ) (metro : Bool)
    (hs : 0 ≤ salary) (hh : 0 ≤ hra) (hr : 0 ≤ rentPaid) :
    (calculateHRAExemption salary hra rentPaid metro).hraExemption =
      (jsRound (min hra (min ((salary * (1 / 2)) * (if metro then (1 : ℚ) / 2 else 2 / 5))
        (max 0 (rentPaid - (salary * (1 / 2)) * (1 / 10))))) : ℚ) ∧
    (calculateHRAExemption salary hra rentPaid metro).taxableHRA =
      (jsRound (hra - min hra (min ((salary * (1 / 2)) * (if metro then (1 : ℚ) / 2 else 2 / 5))
        (max 0 (rentPaid - (salary * (1 / 2)) * (1 / 10))))) : ℚ) := by
  simp only [calculateHRAExemption]
  have key : (salary * 0.5 * (if metro then (0.5 : ℚ) else 0.4)) ⊓
        (0 ⊔ (rentPaid - salary * 0.5 * 0.1)) =
      ((salary * (1 / 2)) * (if metro then (1 : ℚ) / 2 else 2 / 5)) ⊓
        (0 ⊔ (rentPaid - (salary * (1 / 2)) * (1 / 10))) := by
    cases metro <;> norm_num
  rw [key]
  exact ⟨rfl, rfl⟩

/-- C4 witness: salary 600,000, HRA 180,000, rent 240,000, metro city. -/
theorem calculateHRAExemption_spec_witness :
    (calculateHRAExemption 600000 180000 240000 true).hraExemption =
      (jsRound (min 180000 (min ((600000 * (1 / 2)) * (if true then (1 : ℚ) / 2 else 2 / 5))
        (max 0 (240000 - (600000 * (1 / 2)) * (1 / 10))))) : ℚ) ∧
    (calculateHRAExemption 600000 180000 240000 true).taxableHRA =
      (jsRound (180000 - min 180000 (min ((600000 * (1 / 2)) * (if true then (1 : ℚ) / 2 else 2 / 5))
        (max 0 (240000 - (600000 * (1 / 2)) * (1 / 10))))) : ℚ) :=
  calculateHRAExemption_spec 600000 180000 240000 true (by decide) (by decide) (by decide)

/-- C5: the year-by-year accumulation loop of `calculatePPF` computes exactly
the closed-form annuity-due value
`yearlyAmount * (1+r) * ((1+r)^tenure - 1) / r` at the fixed rate
`r = 0.071`, and the returned `maturityAmount` is that value rounded. -/
theorem calculatePPF_closed_form (y : ℚ) (t : ℕ) (ht : 0 < t) :
    ppfAccum y (7.1 / 100) t t =
      y * (1 + 71 / 1000) * ((1 + 71 / 1000) ^ t - 1) / (71 / 1000) ∧
    (calculatePPF y t).maturityAmount =
      (jsRound (y * (1 + 71 / 1000) * ((1 + 71 / 1000) ^ t - 1) / (71 / 1000)) : ℚ) := by
  have h71 : (7.1 : ℚ) / 100 = 71 / 1000 := by norm_num
  have hr : (71 / 1000 : ℚ) ≠ 0 := by norm_num
  have hmul := ppfAccum_mul y (71 / 1000) t t (le_refl t)
  rw [Nat.add_sub_cancel_left, pow_one] at hmul
  have hmain : ppfAccum y (71 / 1000) t t =
      y * (1 + 71 / 1000) * ((1 + 71 / 1000) ^ t - 1) / (71 / 1000) := by
    rw [eq_div_iff hr, hmul, pow_succ]
    ring
  refine ⟨by rw [h71]; exact hmain, ?_⟩
  simp only [calculatePPF, h71, hmain]

/-- C5 witness: yearly amount 150,000 over the default 15-year tenure. -/
theorem calculatePPF_closed_form_witness :
    ppfAccum 150000 (7.1 / 100) 15 15 =
      150000 * (1 + 71 / 1000) * ((1 + 71 / 1000) ^ 15 - 1) / (71 / 1000) ∧
    (calculatePPF 150000 15).maturityAmount =
      (jsRound (150000 * (1 + 71 / 1000) * ((1 + 71 / 1000) ^ 15 - 1) / (71 / 1000)) : ℚ) :=
  calculatePPF_closed_form 150000 15 (by decide)

/-- C6: both the EMI and the loan-amortization input schemas accept an input
triple exactly when the loan amount is at least 1, the interest rate lies
between 0.1 and 50 inclusive, and the tenure lies between 1 and 50 years
inclusive. -/
theorem schema_accepts_iff_ranges (a r t : ℚ) :
    (emiSchemaAccepts a r t = true ↔
      (1 ≤ a ∧ (1 / 10 ≤ r ∧ r ≤ 50) ∧ (1 ≤ t ∧ t ≤ 50))) ∧
    (amortizationSchemaAccepts a r t = true ↔
      (1 ≤ a ∧ (1 / 10 ≤ r ∧ r ≤ 50) ∧ (1 ≤ t ∧ t ≤ 50))) := by
  constructor <;>
    · simp only [emiSchemaAccepts, amortizationSchemaAccepts,
        Bool.and_eq_true, decide_eq_true_eq]
      norm_num
      tauto

/-- C7: every exported calculation function of `utils/calculations.ts` is
deterministic: two calls with equal arguments return equal results.  The
embedding makes each of the ten functions a pure function of its arguments
(with `Math.log` an explicit argument of `calculateFIRE`), so equal inputs
yield structurally equal outputs and no hidden state, time or randomness can
influence a result. -/
theorem calculations_deterministic
    (x1 x2 x3 x4 x5 y1 y2 y3 y4 y5 : ℚ) (n1 n2 m1 m2 : ℕ) (z1 z2 w1 w2 : ℤ)
    (g g' : Regime) (j j' : JobStability) (b b' : Bool) (L M : ℚ → ℚ)
    (h1 : x1 = y1) (h2 : x2 = y2) (h3 : x3 = y3) (h4 : x4 = y4) (h5 : x5 = y5)
    (hn1 : n1 = m1) (hn2 : n2 = m2) (hz1 : z1 = w1) (hz2 : z2 = w2)
    (hg : g = g') (hj : j = j') (hb : b = b') (hL : L = M) :
    calculateEMI x1 x2 n1 = calculateEMI y1 y2 m1 ∧
    calculateSIP x1 x2 n1 = calculateSIP y1 y2 m1 ∧
    calculateCompoundInterest x1 x2 n1 n2 = calculateCompoundInterest y1 y2 m1 m2 ∧
    calculatePPF x1 n1 = calculatePPF y1 m1 ∧
    calculateRetirementCorpus z1 z2 x1 x2 x3 = calculateRetirementCorpus w1 w2 y1 y2 y3 ∧
    calculateFIRE L x1 x2 x3 x4 x5 = calculateFIRE M y1 y2 y3 y4 y5 ∧
    calculateIncomeTax x1 g = calculateIncomeTax y1 g' ∧
    calculateHRAExemption x1 x2 x3 b = calculateHRAExemption y1 y2 y3 b' ∧
    calculateEmergencyFund x1 x2 j b = calculateEmergencyFund y1 y2 j' b' ∧
    calculateBreakEven x1 x2 x3 = calculateBreakEven y1 y2 y3 := by
  subst_vars
  exact ⟨rfl, rfl, rfl, rfl, rfl, rfl, rfl, rfl, rfl, rfl⟩

/-- C7 witness: determinism instantiated at concrete inputs for all ten
calculation functions. -/
theorem calculations_deterministic_witness :
    calculateEMI 1 2 3 = calculateEMI 1 2 3 ∧
    calculateSIP 1 2 3 = calculateSIP 1 2 3 ∧
    calculateCompoundInterest 1 2 3 4 = calculateCompoundInterest 1 2 3 4 ∧
    calculatePPF 1 3 = calculatePPF 1 3 ∧
    calculateRetirementCorpus 30 60 1 2 3 = calculateRetirementCorpus 30 60 1 2 3 ∧
    calculateFIRE id 1 2 3 4 5 = calculateFIRE id 1 2 3 4 5 ∧
    calculateIncomeTax 1 .new = calculateIncomeTax 1 .new ∧
    calculateHRAExemption 1 2 3 true = calculateHRAExemption 1 2 3 true ∧
    calculateEmergencyFund 1 2 .low true = calculateEmergencyFund 1 2 .low true ∧
    calculateBreakEven 1 2 3 = calculateBreakEven 1 2 3 :=
  calculations_deterministic 1 2 3 4 5 1 2 3 4 5 3 4 3 4 30 60 30 60
    .new .new .low .low true true id id
    rfl rfl rfl rfl rfl rfl rfl rfl rfl rfl rfl rfl rfl

/-- C2: `generateAmortizationSchedule` returns exactly `12 * n` rows, row `k`
(0-based) is numbered month `k + 1`, its stored interest payment is the exact
remaining balance at the start of that month times the monthly rate
`rate / 1200` (rounded, as the source rounds every stored field), and its
stored principal payment is the fixed EMI minus that interest (rounded). -/
theorem amortization_schedule_rows (L r : ℚ) (t k : ℕ) (row : AmortizationRow) :
    (generateAmortizationSchedule L r t).length = 12 * t ∧
    ((generateAmortizationSchedule L r t).get? k = some row →
      row.month = k + 1 ∧
      row.interestPayment = jsRound (amortBalance L r t k * (r / 1200)) ∧
      row.principalPayment =
        jsRound (amortEMI L r t - amortBalance L r t k * (r / 1200))) := by
  have hlen := generateAmortizationSchedule_length L r t
  constructor
  · rw [hlen, Nat.mul_comm]
  · intro h
    have hk : k < t * 12 := by
      have := (List.get?_eq_some.mp h).1
      rwa [hlen] at this
    obtain ⟨cp', ci', hrow⟩ :=
      amortGo_get? (amortEMI L r t) (r / (12 * 100)) (t * 12) k hk 1 L 0 0
    simp only [generateAmortizationSchedule] at h
    have heq := Option.some.inj (h.symm.trans hrow)
    subst heq
    have hr1200 : r / 1200 = r / (12 * 100) := by norm_num
    refine ⟨Nat.add_comm 1 k, ?_, ?_⟩
    · show jsRound ((amortStep (amortEMI L r t) (r / (12 * 100)))^[k] L *
          (r / (12 * 100))) = jsRound (amortBalance L r t k * (r / 1200))
      rw [hr1200]; rfl
    · show jsRound (amortEMI L r t -
          (amortStep (amortEMI L r t) (r / (12 * 100)))^[k] L * (r / (12 * 100))) =
        jsRound (amortEMI L r t - amortBalance L r t k * (r / 1200))
      rw [hr1200]; rfl

/-- C2 witness: loan 1000 at 12% over 1 year, first row. -/
theorem amortization_schedule_rows_witness :
    (generateAmortizationSchedule 1000 12 1).length = 12 * 1 ∧
    (((generateAmortizationSchedule 1000 12 1).get? 0).getD default).month = 0 + 1 ∧
    (((generateAmortizationSchedule 1000 12 1).get? 0).getD default).interestPayment =
      jsRound (amortBalance 1000 12 1 0 * (12 / 1200)) ∧
    (((generateAmortizationSchedule 1000 12 1).get? 0).getD default).principalPayment =
      jsRound (amortEMI 1000 12 1 - amortBalance 1000 12 1 0 * (12 / 1200)) := by
  have h := amortization_schedule_rows 1000 12 1 0
    (((generateAmortizationSchedule 1000 12 1).get? 0).getD default)
  have hget := get?_getD_of_lt (generateAmortizationSchedule 1000 12 1) 0
    (by rw [generateAmortizationSchedule_length]; omega)
  exact ⟨h.1, (h.2 hget).1, (h.2 hget).2.1, (h.2 hget).2.2⟩

/-- C8: every stored `remainingBalance` of the schedule is non-negative (the
loop clamps the exact balance with `Math.max(0, ·)` before rounding), and for
positive loan amount and rate the sequence of rounded remaining balances is
non-increasing month over month. -/
theorem amortization_balance_nonneg_antitone (L r : ℚ) (t j k : ℕ)
    (rj rk : AmortizationRow) :
    ((generateAmortizationSchedule L r t).get? k = some rk →
      0 ≤ rk.remainingBalance) ∧
    (0 < L → 0 < r → j ≤ k →
      (generateAmortizationSchedule L r t).get? j = some rj →
      (generateAmortizationSchedule L r t).get? k = some rk →
      rk.remainingBalance ≤ rj.remainingBalance) := by
  have hlen := generateAmortizationSchedule_length L r t
  constructor
  · intro h
    have hk : k < t * 12 := by
      have := (List.get?_eq_some.mp h).1
      rwa [hlen] at this
    obtain ⟨cp', ci', hrow⟩ :=
      amortGo_get? (amortEMI L r t) (r / (12 * 100)) (t * 12) k hk 1 L 0 0
    simp only [generateAmortizationSchedule] at h
    have heq := Option.some.inj (h.symm.trans hrow)
    subst heq
    show (0 : ℤ) ≤ jsRound
      ((amortStep (amortEMI L r t) (r / (12 * 100)))^[k + 1] L)
    refine jsRound_nonneg ?_
    rw [Function.iterate_succ_apply']
    exact le_max_left 0 _
  · intro hL hr hjk hj hk'
    have hkt : k < t * 12 := by
      have := (List.get?_eq_some.mp hk').1
      rwa [hlen] at this
    have hjt : j < t * 12 := by
      have := (List.get?_eq_some.mp hj).1
      rwa [hlen] at this
    obtain ⟨cpk, cik, hrowk⟩ :=
      amortGo_get? (amortEMI L r t) (r / (12 * 100)) (t * 12) k hkt 1 L 0 0
    obtain ⟨cpj, cij, hrowj⟩ :=
      amortGo_get? (amortEMI L r t) (r / (12 * 100)) (t * 12) j hjt 1 L 0 0
    simp only [generateAmortizationSchedule] at hj hk'
    have heqk := Option.some.inj (hk'.symm.trans hrowk)
    have heqj := Option.some.inj (hj.symm.trans hrowj)
    subst heqk
    subst heqj
    show jsRound ((amortStep (amortEMI L r t) (r / (12 * 100)))^[k + 1] L) ≤
      jsRound ((amortStep (amortEMI L r t) (r / (12 * 100)))^[j + 1] L)
    have ht : 0 < t := by
      rcases Nat.eq_zero_or_pos t with h0 | h0
      · subst h0; omega
      · exact h0
    have he := amortEMI_ge L r t hL hr ht
    have hmr0 : 0 ≤ r / (12 * 100) := le_of_lt (div_pos hr (by norm_num))
    exact jsRound_mono
      (amortBalance_antitone _ _ L (le_of_lt hL) hmr0 he (by omega))

/-- C8 witness: loan 1000 at 12% over 1 year, rows 0 and 5. -/
theorem amortization_balance_nonneg_antitone_witness :
    0 ≤ (((generateAmortizationSchedule 1000 12 1).get? 5).getD default).remainingBalance ∧
    (((generateAmortizationSchedule 1000 12 1).get? 5).getD default).remainingBalance ≤
      (((generateAmortizationSchedule 1000 12 1).get? 0).getD default).remainingBalance := by
  have hg0 := get?_getD_of_lt (generateAmortizationSchedule 1000 12 1) 0
    (by rw [generateAmortizationSchedule_length]; omega)
  have hg5 := get?_getD_of_lt (generateAmortizationSchedule 1000 12 1) 5
    (by rw [generateAmortizationSchedule_length]; omega)
  have h := amortization_balance_nonneg_antitone 1000 12 1 0 5
    (((generateAmortizationSchedule 1000 12 1).get? 0).getD default)
    (((generateAmortizationSchedule 1000 12 1).get? 5).getD default)
  exact ⟨h.1 hg5, h.2 (by norm_num) (by norm_num) (by omega) hg0 hg5⟩

end MyMoneyMap
